import Mathlib

/-!
Verification of the paper-correction pipeline (extraction, comparison,
evaluation, calibration store) by a shallow embedding of the Python
sources into Lean.  Python `float` arithmetic is modelled by exact
rational arithmetic over `ℚ`; `round(x, 2)` is modelled as decimal
rounding half-to-even at two places.  External collaborators (the
transcription and grading models, the embedding cosine) are modelled as
explicit oracle inputs.
-/

namespace PaperCorrection

/-! ### Python string primitives

Helpers that mirror the exact Python string operations used by the
sources: `str.strip`, `str.split(sep)`, `str.startswith`, substring
membership (`in`), `str.lower`, and `float(...)` conversion. -/

/-- Python whitespace: the characters stripped by `str.strip()` and
matched by the regex class `\s`. -/
def isPyWs (c : Char) : Bool :=
  c = ' ' || c = '\t' || c = '\n' || c = '\r' || c = '\x0b' || c = '\x0c'

/-- `str.strip()` on a character list. -/
def stripChars (l : List Char) : List Char :=
  ((l.dropWhile isPyWs).reverse.dropWhile isPyWs).reverse

/-- `str.strip()`. -/
def pyStrip (s : String) : String :=
  ⟨stripChars s.data⟩

/-- Does `l` start with `p`?  (Python `str.startswith`.) -/
def listStartsWith : List Char → List Char → Bool
  | [], _ => true
  | _ :: _, [] => false
  | p :: ps, c :: cs => p = c && listStartsWith ps cs

/-- Does `needle` occur somewhere inside `hay`?  (Python `in`.) -/
def listContainsSub (needle : List Char) : List Char → Bool
  | [] => listStartsWith needle []
  | c :: rest => listStartsWith needle (c :: rest) || listContainsSub needle rest

/-- Python `needle in hay` on strings. -/
def containsSub (hay needle : String) : Bool :=
  listContainsSub needle.data hay.data

/-- Python `str.startswith` on strings. -/
def pyStartsWith (s pre : String) : Bool :=
  listStartsWith pre.data s.data

/-- `str.split(sep)` for a single-character separator, on lists.
`splitChar c "" = [""]` and separators at the ends produce empty parts,
exactly as in Python. -/
def splitCharList (sep : Char) : List Char → List (List Char)
  | [] => [[]]
  | c :: rest =>
    let r := splitCharList sep rest
    if c = sep then [] :: r
    else
      match r with
      | h :: t => (c :: h) :: t
      | [] => [[c]]

/-- `str.split(sep)` for a one-character separator. -/
def pySplitChar (sep : Char) (s : String) : List String :=
  (splitCharList sep s.data).map (fun l => ⟨l⟩)

/-- `str.split(sep, 1)`: the text before and after the first occurrence
of the one-character separator (identity pair when absent). -/
def splitCharOnce (sep : Char) (s : String) : String × String :=
  match splitCharList sep s.data with
  | [] => (s, "")
  | h :: t =>
    if t.isEmpty then (⟨h⟩, "")
    else (⟨h⟩, ⟨List.intercalate [sep] t⟩)

/-- `str.lower()` (ASCII letters suffice for the error strings used). -/
def pyLower (s : String) : String :=
  ⟨s.data.map Char.toLower⟩

/-- Index of the first occurrence of `sep` in `l`, if any. -/
def findSub (sep : List Char) : List Char → Option ℕ
  | [] => if listStartsWith sep [] then some 0 else none
  | c :: rest =>
    if listStartsWith sep (c :: rest) then some 0
    else (findSub sep rest).map (· + 1)

theorem listStartsWith_length {p l : List Char} (h : listStartsWith p l = true) :
    p.length ≤ l.length := by
  induction p generalizing l with
  | nil => exact Nat.zero_le _
  | cons a as ih =>
    cases l with
    | nil => simp [listStartsWith] at h
    | cons b bs =>
      simp only [listStartsWith, Bool.and_eq_true] at h
      simpa using Nat.succ_le_succ (ih h.2)

theorem findSub_bound {sep l : List Char} {i : ℕ} (h : findSub sep l = some i) :
    i + sep.length ≤ l.length := by
  induction l generalizing i with
  | nil =>
    simp only [findSub] at h
    split at h
    · rename_i hs
      cases h
      simpa using listStartsWith_length hs
    · cases h
  | cons c rest ih =>
    simp only [findSub] at h
    split at h
    · rename_i hs
      cases h
      simpa using listStartsWith_length hs
    · match hr : findSub sep rest with
      | none => rw [hr] at h; cases h
      | some j =>
        rw [hr] at h
        simp only [Option.map_some'] at h
        cases h
        have := ih hr
        simpa [Nat.add_right_comm] using Nat.succ_le_succ this

/-- `str.split(sep)` for a multi-character separator (Python semantics:
the list of chunks between occurrences of `sep`). -/
def splitSubList (sep : List Char) (l : List Char) : List (List Char) :=
  if hs : sep = [] then [l]
  else
    match h : findSub sep l with
    | none => [l]
    | some i => l.take i :: splitSubList sep (l.drop (i + sep.length))
termination_by l.length
decreasing_by
  simp only [List.length_drop]
  have hb := findSub_bound h
  have hsl : 1 ≤ sep.length := by
    cases sep with
    | nil => exact absurd rfl hs
    | cons a as => exact Nat.succ_le_succ (Nat.zero_le _)
  omega

/-- `str.split(sep)` on strings, multi-character separator. -/
def pySplitSub (sep s : String) : List String :=
  (splitSubList sep.data s.data).map (fun l => ⟨l⟩)

/-- Python `float(text)`: strips whitespace, then accepts an optional
sign and decimal digits with at most one point (at least one digit
overall).  Exponent, `inf`/`nan` and underscore forms — never produced
by the model responses handled here — are not modelled. -/
def pyFloat? (s : String) : Option ℚ :=
  let cs := stripChars s.data
  let (sign, cs) :=
    match cs with
    | '-' :: rest => ((-1 : ℚ), rest)
    | '+' :: rest => ((1 : ℚ), rest)
    | _ => ((1 : ℚ), cs)
  let intPart := cs.takeWhile Char.isDigit
  let rest := cs.dropWhile Char.isDigit
  let digitVal : List Char → ℕ := fun ds =>
    ds.foldl (fun acc c => acc * 10 + (c.toNat - '0'.toNat)) 0
  match rest with
  | [] =>
    if intPart.isEmpty then none
    else some (sign * digitVal intPart)
  | '.' :: fracCs =>
    let fracPart := fracCs.takeWhile Char.isDigit
    if fracCs.dropWhile Char.isDigit ≠ [] then none
    else if intPart.isEmpty ∧ fracPart.isEmpty then none
    else some (sign * ((digitVal intPart : ℚ) +
      (digitVal fracPart : ℚ) / ((10 : ℚ) ^ fracPart.length)))
  | _ => none

/-! ### Decimal rounding

Python's `round(x, 2)` rounds to the nearest multiple of `1/100`,
half-to-even.  We model it exactly over `ℚ`. -/

/-- Floor of a rational as `num.fdiv den` (floor division; the
denominator of a `ℚ` is always positive). -/
def ratFloor (q : ℚ) : ℤ :=
  Int.fdiv q.num q.den

/-- `ratFloor` agrees with Mathlib's floor. -/
theorem ratFloor_eq_floor (q : ℚ) : ratFloor q = ⌊q⌋ := by
  rw [ratFloor, Int.fdiv_eq_ediv _ (by positivity), Rat.floor_def]

/-- Round a rational to the nearest integer, half-to-even. -/
def roundHalfEven (q : ℚ) : ℤ :=
  let f := ratFloor q
  let r := q - (f : ℚ)
  if r < 1/2 then f
  else if 1/2 < r then f + 1
  else if f % 2 = 0 then f else f + 1

/-- Python `round(x, 2)` modelled over `ℚ`. -/
def round2 (q : ℚ) : ℚ :=
  (roundHalfEven (q * 100) : ℚ) / 100

/-! ### Data model

`ComparisonRecord` models the per-page dict produced by
`SemanticComparator` (keys `similarity`, `analysis`, `teacher_page_no`,
`student_page_no`).  Python records are open dicts, so a caller may also
attach the `marks_earned` / `marks_possible` keys of the spec's data
model; the fields below carry them (the Evaluator would read absent
keys as `0` via `.get`, which the `0` default of a caller-built record
represents). -/

structure ComparisonRecord where
  similarity : ℚ
  analysis : String
  teacher_page_no : ℤ
  student_page_no : ℤ
  marks_earned : ℚ := 0
  marks_possible : ℚ := 0
  deriving Repr, DecidableEq

/-- Per-page entry of the evaluation's `page_scores` list
(`src/evaluation.py` lines 88–94). -/
structure PageScoreInfo where
  page_no : ℤ
  similarity_score : ℚ
  marks_awarded : ℚ
  max_marks : ℚ
  analysis : String
  deriving Repr, DecidableEq

/-- The dict returned by `Evaluator.evaluate_comparisons`
(`src/evaluation.py` lines 65–75 and 108–117). -/
structure EvalResult where
  total_score : ℚ
  max_score : ℚ
  percentage : ℚ
  average_similarity : ℚ
  status : String
  grade : String
  page_scores : List PageScoreInfo
  total_pages_evaluated : ℕ
  deriving Repr, DecidableEq

/-! ### `Evaluator` (src/evaluation.py) -/

/-- `Evaluator.calculate_page_score` (lines 24–53): the similarity →
multiplier curve, then `round(max_marks_per_page * multiplier, 2)`. -/
def calculate_page_score (similarity max_marks_per_page : ℚ) : ℚ :=
  let score_multiplier : ℚ :=
    if similarity ≥ 9/10 then 1
    else if similarity ≥ 8/10 then 95/100
    else if similarity ≥ 7/10 then 85/100
    else if similarity ≥ 6/10 then 75/100
    else if similarity ≥ 5/10 then 65/100
    else if similarity ≥ 4/10 then 50/100
    else if similarity ≥ 3/10 then 35/100
    else similarity
  round2 (max_marks_per_page * score_multiplier)

/-- `Evaluator.calculate_grade` (lines 119–152): the if/elif threshold
chain on the percentage. -/
def calculate_grade (percentage : ℚ) : String :=
  if percentage ≥ 90 then "A+"
  else if percentage ≥ 85 then "A"
  else if percentage ≥ 80 then "A-"
  else if percentage ≥ 75 then "B+"
  else if percentage ≥ 70 then "B"
  else if percentage ≥ 65 then "B-"
  else if percentage ≥ 60 then "C+"
  else if percentage ≥ 55 then "C"
  else if percentage ≥ 50 then "C-"
  else if percentage ≥ 45 then "D+"
  else if percentage ≥ 40 then "D"
  else "F"

/-- The raw (pre-rounding) total score accumulated by the loop of
`evaluate_comparisons` (lines 84–98): the sum of the per-page scores. -/
def rawTotalScore (total_marks : ℚ) (rs : List ComparisonRecord) : ℚ :=
  (rs.map (fun r => calculate_page_score r.similarity (total_marks / rs.length))).sum

/-- The raw (pre-rounding) percentage computed at line 102:
`(total_score / self.total_marks) * 100`. -/
def rawPercentage (total_marks : ℚ) (rs : List ComparisonRecord) : ℚ :=
  rawTotalScore total_marks rs / total_marks * 100

/-- `Evaluator.evaluate_comparisons` (lines 55–117).  `total_marks` and
`pass_threshold` are the `Evaluator.__init__` configuration.  Faithful
on the domain where Python does not raise (`total_marks ≠ 0`, else
line 102 divides by zero). -/
def evaluate_comparisons (total_marks pass_threshold : ℚ)
    (rs : List ComparisonRecord) : EvalResult :=
  if rs.isEmpty then
    { total_score := 0
      max_score := total_marks
      percentage := 0
      status := "fail"
      grade := "F"
      page_scores := []
      average_similarity := 0
      total_pages_evaluated := 0 }
  else
    let n : ℕ := rs.length
    let marks_per_page : ℚ := total_marks / n
    let page_scores : List PageScoreInfo :=
      rs.map (fun r =>
        { page_no := r.student_page_no
          similarity_score := round2 (r.similarity * 100)
          marks_awarded := calculate_page_score r.similarity marks_per_page
          max_marks := round2 marks_per_page
          analysis := r.analysis })
    let total_similarity : ℚ := (rs.map (fun r => r.similarity)).sum
    let total_score : ℚ := rawTotalScore total_marks rs
    let average_similarity : ℚ := total_similarity / n
    let percentage : ℚ := total_score / total_marks * 100
    let status : String := if percentage ≥ pass_threshold then "pass" else "fail"
    let grade : String := calculate_grade percentage
    { total_score := round2 total_score
      max_score := total_marks
      percentage := round2 percentage
      average_similarity := round2 (average_similarity * 100)
      status := status
      grade := grade
      page_scores := page_scores
      total_pages_evaluated := n }

/-- Metadata block of the report built by
`Evaluator.generate_evaluation_report` (lines 175–181).
`evaluation_date` is `datetime.now().isoformat()`; the clock reading is
an explicit input of the embedding. -/
structure ReportMetadata where
  evaluation_date : String
  teacher_file : String
  student_file : String
  student_info : List (String × String)
  deriving Repr, DecidableEq

/-- The report returned by `Evaluator.generate_evaluation_report`. -/
structure EvaluationReport where
  metadata : ReportMetadata
  evaluation : EvalResult
  detailed_page_analysis : List PageScoreInfo
  deriving Repr, DecidableEq

/-- `Evaluator.generate_evaluation_report` (lines 154–186).  `now` is
the wall-clock reading taken at line 177. -/
def generate_evaluation_report (total_marks pass_threshold : ℚ)
    (rs : List ComparisonRecord) (student_info : Option (List (String × String)))
    (teacher_file student_file : String) (now : String) : EvaluationReport :=
  let evaluation := evaluate_comparisons total_marks pass_threshold rs
  { metadata :=
      { evaluation_date := now
        teacher_file := teacher_file
        student_file := student_file
        student_info := student_info.getD [] }
    evaluation := evaluation
    detailed_page_analysis := evaluation.page_scores }

/-! ### Spec-side definitions for refinement claims -/

/-- Modelled from the spec: `Σ marks_possible` over a record list, the
dynamic total that §3 says `max_score` should equal when positive. -/
def sumMarksPossible (rs : List ComparisonRecord) : ℚ :=
  (rs.map (fun r => r.marks_possible)).sum

/-- Modelled from the spec: the ordered grade-threshold table, highest
threshold first, as `calculate_grade` hard-codes it. -/
def gradeTable : List (ℚ × String) :=
  [(90, "A+"), (85, "A"), (80, "A-"), (75, "B+"), (70, "B"), (65, "B-"),
   (60, "C+"), (55, "C"), (50, "C-"), (45, "D+"), (40, "D")]

/-- Modelled from the spec: a step function over an ordered threshold
table in which the first (hence highest) satisfied threshold wins, with
default grade `"F"`. -/
def tableGrade (percentage : ℚ) : List (ℚ × String) → String
  | [] => "F"
  | (t, g) :: rest => if percentage ≥ t then g else tableGrade percentage rest

/-! ### `DocumentExtractor` (src/extraction.py)

The external transcription call (`generate_content_async`) is modelled
as an oracle: one `Except String String` per page — `.ok raw` is a
response whose `.text` is `raw`, `.error e` is a raised exception.  The
rate-limit semaphore and the sleep are timing behaviour with no effect
on the returned data and are not part of the data-level embedding. -/

structure PageResult where
  page_no : ℕ
  content : String
  student_name : String
  roll_no : String
  extraction_confidence : ℚ
  /-- `raw_text` key; the failure dict (lines 105–111) omits it. -/
  raw_text : Option String
  deriving Repr, DecidableEq

/-- The literal tag searched by the confidence regex. -/
def confTag : List Char := "EXTRACTION_CONFIDENCE:".data

/-- `re.search(r"EXTRACTION_CONFIDENCE:\s*([\d.]+)", raw)` (line 83):
scan for the first position where the literal tag, optional whitespace
and a non-empty run of `[0-9.]` match; return that run (group 1). -/
def confSearch : List Char → Option (List Char)
  | [] => none
  | c :: rest =>
    if listStartsWith confTag (c :: rest) then
      let after := ((c :: rest).drop confTag.length).dropWhile isPyWs
      let digits := after.takeWhile (fun ch => ch.isDigit || ch = '.')
      if digits.isEmpty then confSearch rest else some digits
    else confSearch rest

/-- The structured-response parse of `transcribe_page` (lines 70–93):
`some (name, roll, confidence, content)` when the guarded `try` block
runs to completion, `none` when the guard fails or the block raises
(in which case every default survives, `clean_content` staying the raw
text). -/
def parseTranscription (raw : String) : Option (String × String × ℚ × String) :=
  if containsSub raw "METADATA_NAME:" && containsSub raw "CONTENT:" then
    -- name_part = raw.split("METADATA_NAME:")[1].split("METADATA_ROLL:")[0].strip()
    let name_part :=
      pyStrip ((pySplitSub "METADATA_ROLL:"
        ((pySplitSub "METADATA_NAME:" raw).getD 1 "")).getD 0 "")
    -- roll_part = raw.split("METADATA_ROLL:")[1]...: IndexError when the tag is absent
    match (pySplitSub "METADATA_ROLL:" raw).get? 1 with
    | none => none
    | some rollSeg =>
      let roll_part := pyStrip ((pySplitSub "EXTRACTION_CONFIDENCE:" rollSeg).getD 0 "")
      let confidence? : Option ℚ :=
        match confSearch raw.data with
        | none => some 0          -- no match: `confidence` keeps its 0.0 default
        | some ds => pyFloat? ⟨ds⟩ -- `float(...)` may raise → whole block fails
      match confidence? with
      | none => none
      | some confidence =>
        let content_part := pyStrip ((pySplitSub "CONTENT:" raw).getD 1 "")
        some ((if name_part ≠ "" then name_part else "Unknown"),
              (if roll_part ≠ "" then roll_part else "Unknown"),
              confidence, content_part)
  else none

/-- `DocumentExtractor.transcribe_page` (lines 31–111) as a function of
the page number and the transcription oracle's outcome for this page. -/
def transcribe_page (pageNo : ℕ) (resp : Except String String) : PageResult :=
  match resp with
  | Except.error _ =>
    { page_no := pageNo
      content := ""
      student_name := "Unknown"
      roll_no := "Unknown"
      extraction_confidence := 0
      raw_text := none }
  | Except.ok raw =>
    match parseTranscription raw with
    | some (name, roll, confidence, content) =>
      { page_no := pageNo
        content := content
        student_name := name
        roll_no := roll
        extraction_confidence := confidence
        raw_text := some raw }
    | none =>
      { page_no := pageNo
        content := raw
        student_name := "Unknown"
        roll_no := "Unknown"
        extraction_confidence := 0
        raw_text := some raw }

/-- The `for i, img in enumerate(images)` loop of `extract_from_file`
(lines 128–135): one `transcribe_page` call per page, numbered from
`pageNo` upward, results appended in source order. -/
def buildPages (responses : List (Except String String)) (pageNo : ℕ) :
    List PageResult :=
  match responses with
  | [] => []
  | r :: rest => transcribe_page pageNo r :: buildPages rest (pageNo + 1)

/-- The dict returned by `extract_from_file` on its success path
(lines 137–144). -/
structure DocumentData where
  source : String
  total_pages : ℕ
  pages : List PageResult
  file_name : String
  student_name : String
  roll_no : String
  deriving Repr, DecidableEq

/-- `DocumentExtractor.extract_from_file` (lines 113–144), success path
of the outer `try` (image conversion succeeded; one oracle outcome per
page image). -/
def extract_from_file (file_name source : String)
    (responses : List (Except String String)) : DocumentData :=
  let pages_content := buildPages responses 1
  let final_name :=
    if source = "student" then
      ((pages_content.head?).map (fun p => p.student_name)).getD "Unknown"
    else "Unknown"
  let final_roll :=
    if source = "student" then
      ((pages_content.head?).map (fun p => p.roll_no)).getD "Unknown"
    else "Unknown"
  { source := source
    total_pages := pages_content.length
    pages := pages_content
    file_name := file_name
    student_name := final_name
    roll_no := final_roll }

/-! ### `SemanticComparator` (src/compare.py)

The grading model is an oracle: one `Except String String` per retry
attempt (`.ok` a response text, `.error` a raised exception whose
string is classified for rate limiting).  The sentence-transformer
embedding cosine is an oracle rational. -/

/-- A `{"similarity": ..., "analysis": ...}` dict. -/
structure SimResult where
  similarity : ℚ
  analysis : String
  deriving Repr, DecidableEq

/-- `compare_with_sentence_transformers` (lines 45–71): empty-input
guard, then the cosine clamped by `float(max(0.0, min(1.0, s)))`. -/
def compare_with_sentence_transformers (text1 text2 : String) (cosine : ℚ) : ℚ :=
  if pyStrip text1 = "" || pyStrip text2 = "" then 0
  else max 0 (min 1 cosine)

/-- The `SCORE:` line handler (lines 121–125):
`float(line.split(':')[1].strip()) / 100.0`, defaulting to `0.5` when
`float` raises. -/
def parseScoreLine (line : String) : ℚ :=
  match pyFloat? (pyStrip ((pySplitChar ':' line).getD 1 "")) with
  | some v => v / 100
  | none => 1/2

/-- The `for line in response_text.split('\n')` parse loop
(lines 117–127), threading the `(score, analysis)` state. -/
def parseGeminiLoop : List String → ℚ × String → ℚ × String
  | [], acc => acc
  | line :: rest, (score, analysis) =>
    parseGeminiLoop rest
      (if pyStartsWith line "SCORE:" then (parseScoreLine line, analysis)
       else if pyStartsWith line "ANALYSIS:" then
         (score, pyStrip (splitCharOnce ':' line).2)
       else (score, analysis))

/-- Parsing of a successful grading response (lines 116–132): tolerant
tag scan, clamp to `[0, 1]`, analysis falling back to the whole
response text when the `ANALYSIS:` tag yielded nothing. -/
def parseGeminiResponse (text : String) : SimResult :=
  let st := parseGeminiLoop (pySplitChar '\n' text) (0, "")
  { similarity := max 0 (min 1 st.1)
    analysis := if st.2 ≠ "" then st.2 else text }

/-- The rate-limit classifier of line 138:
`"429" in msg or "rate" in msg or "quota" in msg` on the lowered
exception text. -/
def isRateLimitError (e : String) : Bool :=
  containsSub (pyLower e) "429" || containsSub (pyLower e) "rate" ||
    containsSub (pyLower e) "quota"

/-- Python `f"{q:.2%}"`. -/
def formatPercent (q : ℚ) : String :=
  let n := roundHalfEven (q * 10000)
  let frac := (n % 100).toNat
  toString (n / 100) ++ "." ++ (if frac < 10 then "0" else "") ++
    toString frac ++ "%"

/-- The `for attempt in range(retry_count)` loop of
`compare_with_gemini` (lines 111–159).  The list carries one oracle
outcome per attempt, so "last attempt" is the singleton tail; on a
final failure both the rate-limit and generic branches degrade to the
sentence-transformer similarity. -/
def geminiAttemptLoop (text1 text2 : String) (cosine : ℚ) :
    List (Except String String) → Option SimResult
  | [] => none
  | Except.ok resp :: _ => some (parseGeminiResponse resp)
  | Except.error e :: rest =>
    if rest.isEmpty then
      let similarity := compare_with_sentence_transformers text1 text2 cosine
      if isRateLimitError e then
        some { similarity := similarity
               analysis := "Gemini API rate limited, used fallback. Score: " ++
                 formatPercent similarity }
      else
        some { similarity := similarity
               analysis := "Gemini API error, used fallback. Score: " ++
                 formatPercent similarity }
    else geminiAttemptLoop text1 text2 cosine rest

/-- `compare_with_gemini` (lines 73–159).  Returns `none` exactly when
Python falls off the loop (`retry_count ≤ 0`, the implicit `None`). -/
def compare_with_gemini (text1 text2 : String) (cosine : ℚ)
    (attempts : List (Except String String)) : Option SimResult :=
  if pyStrip text1 = "" || pyStrip text2 = "" then
    some { similarity := 0, analysis := "Empty content" }
  else geminiAttemptLoop text1 text2 cosine attempts

/-- `compare_page_async` (lines 185–211): compare the two page contents
(`cmp` abstracts the `compare_texts` call, whose oracles vary per
page), then attach the page numbers.  The produced dict has no marks
keys; the `0` defaults represent the Evaluator's `.get` view of the
absent keys. -/
def compare_page (cmp : String → String → SimResult)
    (teacher_page student_page : PageResult) : ComparisonRecord :=
  let result := cmp teacher_page.content student_page.content
  { similarity := result.similarity
    analysis := result.analysis
    teacher_page_no := teacher_page.page_no
    student_page_no := student_page.page_no }

/-- `compare_documents` (lines 213–237):
`min_pages = min(len(teacher_pages), len(student_pages))` and one
`compare_page_async(teacher_pages[i], student_pages[i])` per
`i < min_pages`, results gathered in index order — i.e. `zipWith`. -/
def compare_documents (cmp : String → String → SimResult)
    (teacher_pages student_pages : List PageResult) : List ComparisonRecord :=
  List.zipWith (compare_page cmp) teacher_pages student_pages

/-! ### `ResultsDB` (src/database.py)

The SQLite table is modelled as a list of rows plus the
`AUTOINCREMENT` counter; `get_all_results_df`'s `ORDER BY id DESC` is
an explicit descending sort by `id`. -/

structure ResultRow where
  id : ℕ
  student_name : String
  roll_no : String
  subject : String
  ai_score : ℚ
  teacher_score : ℚ
  score_variance : ℚ
  max_score : ℚ
  grade : String
  timestamp : String
  deriving Repr, DecidableEq

structure ResultsDB where
  rows : List ResultRow
  next_id : ℕ
  deriving Repr, DecidableEq

/-- `ResultsDB.insert_result` (lines 35–58): computes
`variance = teacher_val - ai_val` and appends one row; `timestamp` is
the `datetime.now()` clock reading, an explicit input. -/
def insert_result (db : ResultsDB) (name roll subject : String)
    (ai_score teacher_score max_m : ℚ) (grade timestamp : String) : ResultsDB :=
  let variance := teacher_score - ai_score
  { rows := db.rows ++
      [{ id := db.next_id
         student_name := name
         roll_no := roll
         subject := subject
         ai_score := ai_score
         teacher_score := teacher_score
         score_variance := variance
         max_score := max_m
         grade := grade
         timestamp := timestamp }]
    next_id := db.next_id + 1 }

/-- Insertion into a list kept in descending `id` order. -/
def insertDescRow (r : ResultRow) : List ResultRow → List ResultRow
  | [] => [r]
  | x :: xs => if r.id ≥ x.id then r :: x :: xs else x :: insertDescRow r xs

/-- Descending sort by `id` (insertion sort). -/
def sortByIdDesc : List ResultRow → List ResultRow
  | [] => []
  | x :: xs => insertDescRow x (sortByIdDesc xs)

/-- `ResultsDB.get_all_results_df` (lines 60–65):
`SELECT * FROM results ORDER BY id DESC`. -/
def get_all_results (db : ResultsDB) : List ResultRow :=
  sortByIdDesc db.rows

/-- Well-formedness of a database state: every stored `id` is below the
`AUTOINCREMENT` counter (true of every state SQLite can reach). -/
def DBWf (db : ResultsDB) : Prop :=
  ∀ r ∈ db.rows, r.id < db.next_id

/-! ## Theorems -/

/-! #### Evaluation lemmas for decimal rounding -/

theorem roundHalfEven_intCast (n : ℤ) : roundHalfEven (n : ℚ) = n := by
  have h : ratFloor (n : ℚ) = n := by
    rw [ratFloor_eq_floor]; exact Int.floor_intCast n
  simp [roundHalfEven, h]

/-- `round2` is the identity on exact multiples of `1/100`. -/
theorem round2_eq_self (q : ℚ) (n : ℤ) (h : q * 100 = (n : ℚ)) : round2 q = q := by
  rw [round2, h, roundHalfEven_intCast]
  field_simp at h ⊢
  linarith

/-- `round2` rounds up when the fractional part at two decimals
exceeds one half. -/
theorem round2_eq_up (q : ℚ) (f : ℤ) (h1 : 1/2 < q * 100 - f) (h2 : q * 100 < f + 1) :
    round2 q = ((f : ℚ) + 1) / 100 := by
  have hfl : ratFloor (q * 100) = f := by
    rw [ratFloor_eq_floor]
    refine Int.floor_eq_iff.mpr ⟨by linarith, by exact_mod_cast h2⟩
  simp only [round2, roundHalfEven, hfl]
  rw [if_neg (by linarith), if_pos h1]
  push_cast
  ring

/-- `percentage` field of the evaluation of a non-empty record list. -/
theorem evaluate_comparisons_cons_percentage (total_marks pass_threshold : ℚ)
    (r : ComparisonRecord) (l : List ComparisonRecord) :
    (evaluate_comparisons total_marks pass_threshold (r :: l)).percentage =
      round2 (rawPercentage total_marks (r :: l)) := rfl

/-- `status` field of the evaluation of a non-empty record list. -/
theorem evaluate_comparisons_cons_status (total_marks pass_threshold : ℚ)
    (r : ComparisonRecord) (l : List ComparisonRecord) :
    (evaluate_comparisons total_marks pass_threshold (r :: l)).status =
      if rawPercentage total_marks (r :: l) ≥ pass_threshold then "pass" else "fail" := rfl

/-- The `max_score` field of `evaluate_comparisons` output, both
branches. -/
theorem evaluate_comparisons_max_score (total_marks pass_threshold : ℚ)
    (rs : List ComparisonRecord) :
    (evaluate_comparisons total_marks pass_threshold rs).max_score = total_marks := by
  unfold evaluate_comparisons
  split <;> rfl

/-- Claim C1: the code never computes a dynamic `Σ marks_possible`
total.  As amended: `max_score` always equals the caller-supplied
`total_marks`, whatever the records carry, and in particular is nonzero
whenever `total_marks` is positive (hence never zero alongside a
positive `total_score` in any configuration with a positive total). -/
theorem max_score_always_fallback_total :
    ∀ (total_marks pass_threshold : ℚ) (rs : List ComparisonRecord),
      (evaluate_comparisons total_marks pass_threshold rs).max_score = total_marks ∧
      (0 < total_marks →
        (evaluate_comparisons total_marks pass_threshold rs).max_score ≠ 0) := by
  intro tm pt rs
  refine ⟨evaluate_comparisons_max_score tm pt rs, fun h => ?_⟩
  rw [evaluate_comparisons_max_score tm pt rs]
  exact ne_of_gt h

theorem max_score_always_fallback_total_witness :
    (evaluate_comparisons 100 40 []).max_score = 100 ∧
    (evaluate_comparisons 100 40 []).max_score ≠ 0 :=
  ⟨(max_score_always_fallback_total 100 40 []).1,
   (max_score_always_fallback_total 100 40 []).2 (by norm_num)⟩

/-- Claim C1, counterexample to the claim as stated: a record list
whose `marks_possible` sum is `50 > 0`, on which the report's
`max_score` is the configured `100`, not `50`. -/
theorem max_score_ignores_marks_possible_cex :
    0 < sumMarksPossible
      [{ similarity := 1, analysis := "ok", teacher_page_no := 1,
         student_page_no := 1, marks_earned := 40, marks_possible := 50 }] ∧
    (evaluate_comparisons 100 40
      [{ similarity := 1, analysis := "ok", teacher_page_no := 1,
         student_page_no := 1, marks_earned := 40, marks_possible := 50 }]).max_score ≠
      sumMarksPossible
        [{ similarity := 1, analysis := "ok", teacher_page_no := 1,
           student_page_no := 1, marks_earned := 40, marks_possible := 50 }] := by
  constructor
  · norm_num [sumMarksPossible]
  · rw [evaluate_comparisons_max_score]
    norm_num [sumMarksPossible]

/-- Claim C2: `calculate_grade` is the step function of the fixed
ordered threshold table in which the first — hence highest — satisfied
threshold wins, and the boundary values land on the documented side:
92 ↦ "A+", exactly 90 ↦ "A+", exactly 40 ↦ "D", and 41 ↦ the grade of
the 40-threshold band, "D". -/
theorem grade_is_table_step_function :
    (∀ p : ℚ, calculate_grade p = tableGrade p gradeTable) ∧
    calculate_grade 92 = "A+" ∧ calculate_grade 90 = "A+" ∧
    calculate_grade 40 = "D" ∧ calculate_grade 41 = "D" := by
  refine ⟨fun p => ?_, by norm_num [calculate_grade], by norm_num [calculate_grade],
    by norm_num [calculate_grade], by norm_num [calculate_grade]⟩
  simp only [calculate_grade, tableGrade, gradeTable]

/-- Claim C5, counterexample to the claim as stated: the report embeds
the wall-clock reading `datetime.now().isoformat()` in its metadata, so
two calls on the same record list at different instants are not
bit-identical. -/
theorem report_not_bit_identical_cex :
    generate_evaluation_report 100 40 [] none "" "" "2024-01-01T00:00:00" ≠
      generate_evaluation_report 100 40 [] none "" "" "2024-01-01T00:00:01" := by
  intro h
  have := congrArg (fun r => r.metadata.evaluation_date) h
  simp [generate_evaluation_report] at this

/-- Claim C5, as amended: the aggregation is a deterministic, pure
function of the record list and configuration — two calls agree on the
whole evaluation and page breakdown, and the full reports are
bit-identical exactly when the two clock readings coincide. -/
theorem report_deterministic_up_to_timestamp :
    ∀ (total_marks pass_threshold : ℚ) (rs : List ComparisonRecord)
      (info : Option (List (String × String))) (tf sf t₁ t₂ : String),
      (generate_evaluation_report total_marks pass_threshold rs info tf sf t₁).evaluation =
        (generate_evaluation_report total_marks pass_threshold rs info tf sf t₂).evaluation ∧
      (generate_evaluation_report total_marks pass_threshold rs info tf sf t₁).detailed_page_analysis =
        (generate_evaluation_report total_marks pass_threshold rs info tf sf t₂).detailed_page_analysis ∧
      (generate_evaluation_report total_marks pass_threshold rs info tf sf t₁ =
        generate_evaluation_report total_marks pass_threshold rs info tf sf t₂ ↔ t₁ = t₂) := by
  intro tm pt rs info tf sf t₁ t₂
  refine ⟨rfl, rfl, fun h => congrArg (fun r => r.metadata.evaluation_date) h, fun h => by rw [h]⟩

/-- Claim C6, counterexample to the claim as stated: with
`total_marks = 3000` and threshold 40, similarities 0.45 and 4499/15000
give a raw percentage of 11999/300 ≈ 39.997, so the status is "fail",
while the report's rounded `percentage` field is exactly 40 — on the
passing side of the threshold. -/
theorem status_vs_rounded_percentage_cex :
    (evaluate_comparisons 3000 40
      [{ similarity := 9/20, analysis := "p1", teacher_page_no := 1, student_page_no := 1 },
       { similarity := 4499/15000, analysis := "p2", teacher_page_no := 2, student_page_no := 2 }]).percentage ≥ 40 ∧
    (evaluate_comparisons 3000 40
      [{ similarity := 9/20, analysis := "p1", teacher_page_no := 1, student_page_no := 1 },
       { similarity := 4499/15000, analysis := "p2", teacher_page_no := 2, student_page_no := 2 }]).status ≠ "pass" := by
  have hraw : rawTotalScore 3000
      [{ similarity := 9/20, analysis := "p1", teacher_page_no := 1, student_page_no := 1 },
       { similarity := 4499/15000, analysis := "p2", teacher_page_no := 2, student_page_no := 2 }] = 11999/10 := by
    simp only [rawTotalScore, List.map_cons, List.map_nil, List.sum_cons, List.sum_nil,
      List.length_cons, List.length_nil]
    norm_num [calculate_page_score]
    rw [round2_eq_self _ 75000 (by norm_num), round2_eq_self _ 44990 (by norm_num)]
    norm_num
  have hp : rawPercentage 3000
      [{ similarity := 9/20, analysis := "p1", teacher_page_no := 1, student_page_no := 1 },
       { similarity := 4499/15000, analysis := "p2", teacher_page_no := 2, student_page_no := 2 }] = 11999/300 := by
    rw [rawPercentage, hraw]
    norm_num
  constructor
  · rw [evaluate_comparisons_cons_percentage, hp,
      round2_eq_up _ 3999 (by norm_num) (by norm_num)]
    norm_num
  · rw [evaluate_comparisons_cons_status, hp, if_neg (by norm_num)]
    decide

/-- Claim C6, as amended: for every non-empty record list the status is
"pass" exactly when the pre-rounding percentage
`total_score / total_marks × 100` reaches the threshold; the rounded
`percentage` field stored in the report can land on the other side of
the boundary. -/
theorem status_iff_raw_percentage :
    ∀ (total_marks pass_threshold : ℚ) (rs : List ComparisonRecord),
      rs ≠ [] →
      ((evaluate_comparisons total_marks pass_threshold rs).status = "pass" ↔
        rawPercentage total_marks rs ≥ pass_threshold) := by
  intro tm pt rs h
  have hne : rs.isEmpty = false := by
    cases rs with
    | nil => exact absurd rfl h
    | cons a l => rfl
  simp only [evaluate_comparisons, hne, Bool.false_eq_true, if_false, rawPercentage]
  split_ifs with hc
  · simpa using hc
  · constructor
    · intro hEq
      exact absurd hEq (by decide)
    · intro hp
      exact absurd hp hc

theorem status_iff_raw_percentage_witness :
    (evaluate_comparisons 100 40
      [{ similarity := 1, analysis := "w", teacher_page_no := 1, student_page_no := 1 }]).status = "pass" ↔
      rawPercentage 100
        [{ similarity := 1, analysis := "w", teacher_page_no := 1, student_page_no := 1 }] ≥ 40 :=
  status_iff_raw_percentage 100 40
    [{ similarity := 1, analysis := "w", teacher_page_no := 1, student_page_no := 1 }]
    (by decide)

/-! #### Comparator parsing and degrade path -/

/-- A response in which no line carries a `SCORE:` or `ANALYSIS:` tag
leaves the parse state untouched. -/
theorem parseGeminiLoop_no_tags (lines : List String) (acc : ℚ × String)
    (h : ∀ line ∈ lines, pyStartsWith line "SCORE:" = false ∧
      pyStartsWith line "ANALYSIS:" = false) :
    parseGeminiLoop lines acc = acc := by
  induction lines generalizing acc with
  | nil => rfl
  | cons l rest ih =>
    obtain ⟨s, a⟩ := acc
    have hl := h l (List.mem_cons_self _ _)
    simp only [parseGeminiLoop, hl.1, hl.2, Bool.false_eq_true, if_false]
    exact ih _ (fun l' hl' => h l' (List.mem_cons_of_mem _ hl'))

/-- Claim C3, counterexample to the claim as stated: a `SCORE:` tag
with a non-numeric value makes the score default to `0.5`, not to
zero (`float` raises, the bare `except` sets `score = 0.5`). -/
theorem malformed_score_defaults_half_cex :
    (parseGeminiResponse "SCORE: abc\nANALYSIS: ok").similarity = 1/2 ∧
    (1/2 : ℚ) ≠ 0 := by
  constructor
  · have hsplit : pySplitChar '\n' "SCORE: abc\nANALYSIS: ok" =
        ["SCORE: abc", "ANALYSIS: ok"] := by decide
    have hfl : pyFloat? (pyStrip ((pySplitChar ':' "SCORE: abc").getD 1 "")) = none := by
      decide
    have hscore : parseScoreLine "SCORE: abc" = 1/2 := by
      rw [parseScoreLine, hfl]
    simp only [parseGeminiResponse, hsplit, parseGeminiLoop,
      show pyStartsWith "SCORE: abc" "SCORE:" = true from by decide,
      show pyStartsWith "ANALYSIS: ok" "SCORE:" = false from by decide,
      show pyStartsWith "ANALYSIS: ok" "ANALYSIS:" = true from by decide,
      if_true, Bool.false_eq_true, if_false, hscore]
    rw [min_eq_right (by norm_num), max_eq_right (by norm_num)]
  · norm_num

/-- Claim C3, as amended: parsing a grading response never raises; when
both tags are missing the score stays `0.0` and the analysis falls back
to the whole response text (not the empty string); when a `SCORE:` tag
is present but non-numeric the score defaults to `0.5`. -/
theorem malformed_response_soft_defaults :
    (∀ text : String,
      (∀ line ∈ pySplitChar '\n' text,
        pyStartsWith line "SCORE:" = false ∧ pyStartsWith line "ANALYSIS:" = false) →
      parseGeminiResponse text = { similarity := 0, analysis := text }) ∧
    parseGeminiResponse "SCORE: oops" =
      { similarity := 1/2, analysis := "SCORE: oops" } := by
  constructor
  · intro text h
    simp only [parseGeminiResponse, parseGeminiLoop_no_tags _ _ h]
    rw [min_eq_right (by norm_num), max_eq_left (by norm_num)]
    simp
  · have hsplit : pySplitChar '\n' "SCORE: oops" = ["SCORE: oops"] := by decide
    have hfl : pyFloat? (pyStrip ((pySplitChar ':' "SCORE: oops").getD 1 "")) = none := by
      decide
    have hscore : parseScoreLine "SCORE: oops" = 1/2 := by
      rw [parseScoreLine, hfl]
    simp only [parseGeminiResponse, hsplit, parseGeminiLoop,
      show pyStartsWith "SCORE: oops" "SCORE:" = true from by decide,
      if_true, hscore]
    rw [min_eq_right (by norm_num), max_eq_right (by norm_num)]
    simp

theorem malformed_response_soft_defaults_witness :
    parseGeminiResponse "all good" = { similarity := 0, analysis := "all good" } :=
  malformed_response_soft_defaults.1 "all good" (by decide)

/-- The sentence-transformer similarity is always within `[0, 1]`. -/
theorem st_similarity_bounds (text1 text2 : String) (cosine : ℚ) :
    0 ≤ compare_with_sentence_transformers text1 text2 cosine ∧
    compare_with_sentence_transformers text1 text2 cosine ≤ 1 := by
  unfold compare_with_sentence_transformers
  split_ifs with h
  · norm_num
  · exact ⟨le_max_left 0 _, max_le (by norm_num) (min_le_left _ _)⟩

/-- A parsed grading response has its similarity clamped to `[0, 1]`. -/
theorem parseGeminiResponse_bounds (text : String) :
    0 ≤ (parseGeminiResponse text).similarity ∧
    (parseGeminiResponse text).similarity ≤ 1 := by
  unfold parseGeminiResponse
  exact ⟨le_max_left 0 _, max_le (by norm_num) (min_le_left _ _)⟩

/-- A string with a non-empty prefix is non-empty. -/
theorem append_ne_empty_left (s t : String) (h : s ≠ "") : s ++ t ≠ "" := by
  intro hEq
  apply h
  have hd : (s ++ t).data = [] := by rw [hEq]
  rw [String.data_append] at hd
  obtain ⟨h1, _⟩ := List.append_eq_nil.mp hd
  cases s with
  | mk data => simp_all

/-- The retry loop alone: for a non-empty attempt list it always
returns a record with clamped similarity; when every attempt errored,
the analysis carries the non-empty fallback prefix. -/
theorem geminiAttemptLoop_total (text1 text2 : String) (cosine : ℚ) :
    ∀ attempts : List (Except String String), attempts ≠ [] →
      ∃ r, geminiAttemptLoop text1 text2 cosine attempts = some r ∧
        0 ≤ r.similarity ∧ r.similarity ≤ 1 ∧
        ((∀ a ∈ attempts, ∃ e, a = Except.error e) → r.analysis ≠ "") := by
  intro attempts
  induction attempts with
  | nil => intro h; exact absurd rfl h
  | cons a rest ih =>
    intro _
    cases a with
    | ok resp =>
      refine ⟨parseGeminiResponse resp, rfl, (parseGeminiResponse_bounds resp).1,
        (parseGeminiResponse_bounds resp).2, fun hall => ?_⟩
      obtain ⟨e, he⟩ := hall (Except.ok resp) (List.mem_cons_self _ _)
      cases he
    | error e =>
      cases rest with
      | nil =>
        simp only [geminiAttemptLoop, List.isEmpty_nil, if_true]
        split_ifs with hrl
        · exact ⟨_, rfl, (st_similarity_bounds text1 text2 cosine).1,
            (st_similarity_bounds text1 text2 cosine).2,
            fun _ => append_ne_empty_left _ _ (by decide)⟩
        · exact ⟨_, rfl, (st_similarity_bounds text1 text2 cosine).1,
            (st_similarity_bounds text1 text2 cosine).2,
            fun _ => append_ne_empty_left _ _ (by decide)⟩
      | cons b brest =>
        simp only [geminiAttemptLoop, List.isEmpty_cons, Bool.false_eq_true, if_false]
        obtain ⟨r, hr, h0, h1, hana⟩ := ih (by simp)
        exact ⟨r, hr, h0, h1,
          fun hall => hana (fun x hx => hall x (List.mem_cons_of_mem _ hx))⟩

/-- Claim C4: the Comparator is total — the sentence-transformer path
always yields a similarity in `[0, 1]`, and for every non-empty retry
budget `compare_with_gemini` returns a record with similarity in
`[0, 1]`; when the grading collaborator errors on every retry, the
degraded record's analysis string is non-empty. -/
theorem comparator_total_and_bounded :
    (∀ (text1 text2 : String) (cosine : ℚ),
      0 ≤ compare_with_sentence_transformers text1 text2 cosine ∧
      compare_with_sentence_transformers text1 text2 cosine ≤ 1) ∧
    (∀ (text1 text2 : String) (cosine : ℚ)
      (attempts : List (Except String String)), attempts ≠ [] →
      ∃ r, compare_with_gemini text1 text2 cosine attempts = some r ∧
        0 ≤ r.similarity ∧ r.similarity ≤ 1 ∧
        ((∀ a ∈ attempts, ∃ e, a = Except.error e) → r.analysis ≠ "")) := by
  refine ⟨st_similarity_bounds, ?_⟩
  intro t1 t2 c attempts h
  unfold compare_with_gemini
  split_ifs with hempty
  · exact ⟨{ similarity := 0, analysis := "Empty content" }, rfl, le_refl 0,
      by norm_num, fun _ => by decide⟩
  · exact geminiAttemptLoop_total t1 t2 c attempts h

theorem comparator_total_and_bounded_witness :
    (0 ≤ compare_with_sentence_transformers "a" "b" 2 ∧
      compare_with_sentence_transformers "a" "b" 2 ≤ 1) ∧
    ∃ r, compare_with_gemini "a" "b" 2 [Except.error "boom"] = some r ∧
      0 ≤ r.similarity ∧ r.similarity ≤ 1 ∧ r.analysis ≠ "" := by
  refine ⟨comparator_total_and_bounded.1 "a" "b" 2, ?_⟩
  obtain ⟨r, hr, h0, h1, hana⟩ :=
    comparator_total_and_bounded.2 "a" "b" 2 [Except.error "boom"] (by simp)
  refine ⟨r, hr, h0, h1, hana ?_⟩
  intro a ha
  rw [List.mem_singleton.mp ha]
  exact ⟨"boom", rfl⟩

/-! #### Extraction: local failure, source order, page numbering -/

theorem buildPages_length (responses : List (Except String String)) (k : ℕ) :
    (buildPages responses k).length = responses.length := by
  induction responses generalizing k with
  | nil => rfl
  | cons r rest ih => simp [buildPages, ih]

theorem buildPages_getD (responses : List (Except String String)) (k i : ℕ)
    (d : PageResult) (dr : Except String String) (h : i < responses.length) :
    (buildPages responses k).getD i d = transcribe_page (k + i) (responses.getD i dr) := by
  induction responses generalizing k i with
  | nil => simp at h
  | cons r rest ih =>
    cases i with
    | zero => simp [buildPages]
    | succ n =>
      simp only [buildPages, List.getD_cons_succ]
      rw [ih (k + 1) n (Nat.lt_of_succ_lt_succ h)]
      congr 1
      omega

theorem transcribe_page_page_no (k : ℕ) (resp : Except String String) :
    (transcribe_page k resp).page_no = k := by
  cases resp with
  | error e => rfl
  | ok raw =>
    rcases hp : parseTranscription raw with _ | ⟨name, roll, confidence, content⟩ <;>
      simp [transcribe_page, hp]

/-- Claim C7: extraction returns one page per source page, in source
order, each carrying the consecutive 1-based `page_no` of its source
position; a page whose transcription call failed still occupies its
slot, with empty content and zero confidence. -/
theorem page_failure_local_and_ordered :
    ∀ (file_name source : String) (responses : List (Except String String)),
      (extract_from_file file_name source responses).pages.length = responses.length ∧
      ∀ (i : ℕ) (d : PageResult), i < responses.length →
        (((extract_from_file file_name source responses).pages.getD i d).page_no = i + 1 ∧
         ∀ e, responses.getD i (Except.ok "") = Except.error e →
           ((extract_from_file file_name source responses).pages.getD i d).content = "" ∧
           ((extract_from_file file_name source responses).pages.getD i d).extraction_confidence = 0) := by
  intro fn src rs
  have hpages : (extract_from_file fn src rs).pages = buildPages rs 1 := rfl
  refine ⟨by rw [hpages]; exact buildPages_length rs 1, ?_⟩
  intro i d h
  rw [hpages, buildPages_getD rs 1 i d (Except.ok "") h]
  constructor
  · rw [transcribe_page_page_no]
    omega
  · intro e he
    rw [he]
    exact ⟨rfl, rfl⟩

theorem page_failure_local_and_ordered_witness :
    ((extract_from_file "script.pdf" "student" [Except.error "timeout"]).pages.getD 0
      { page_no := 99, content := "x", student_name := "x", roll_no := "x",
        extraction_confidence := 1, raw_text := none }).page_no = 1 ∧
    ((extract_from_file "script.pdf" "student" [Except.error "timeout"]).pages.getD 0
      { page_no := 99, content := "x", student_name := "x", roll_no := "x",
        extraction_confidence := 1, raw_text := none }).content = "" ∧
    ((extract_from_file "script.pdf" "student" [Except.error "timeout"]).pages.getD 0
      { page_no := 99, content := "x", student_name := "x", roll_no := "x",
        extraction_confidence := 1, raw_text := none }).extraction_confidence = 0 := by
  have h := (page_failure_local_and_ordered "script.pdf" "student"
    [Except.error "timeout"]).2 0
    { page_no := 99, content := "x", student_name := "x", roll_no := "x",
      extraction_confidence := 1, raw_text := none } (by norm_num)
  exact ⟨h.1, (h.2 "timeout" rfl).1, (h.2 "timeout" rfl).2⟩

/-! #### Calibration store: variance and most-recent-first listing -/

theorem mem_insertDescRow {a r : ResultRow} {l : List ResultRow} :
    a ∈ insertDescRow r l ↔ a = r ∨ a ∈ l := by
  induction l with
  | nil => simp [insertDescRow]
  | cons x xs ih =>
    simp only [insertDescRow]
    split_ifs with hcmp
    · simp [List.mem_cons]
    · simp only [List.mem_cons, ih]
      tauto

theorem sortByIdDesc_append_big (l : List ResultRow) (r : ResultRow)
    (h : ∀ x ∈ l, x.id < r.id) : sortByIdDesc (l ++ [r]) = r :: sortByIdDesc l := by
  induction l with
  | nil => rfl
  | cons x xs ih =>
    simp only [List.cons_append, sortByIdDesc, List.append_eq]
    rw [ih (fun y hy => h y (List.mem_cons_of_mem _ hy))]
    have hx : x.id < r.id := h x (List.mem_cons_self _ _)
    simp only [insertDescRow]
    rw [if_neg (by omega)]

theorem insertDescRow_sorted (r : ResultRow) (l : List ResultRow)
    (hl : l.Sorted (fun a b => b.id ≤ a.id)) :
    (insertDescRow r l).Sorted (fun a b => b.id ≤ a.id) := by
  induction l with
  | nil => simp [insertDescRow]
  | cons x xs ih =>
    rw [List.sorted_cons] at hl
    simp only [insertDescRow]
    split_ifs with hcmp
    · rw [List.sorted_cons]
      refine ⟨?_, List.sorted_cons.mpr hl⟩
      intro b hb
      rcases List.mem_cons.mp hb with hbx | hbxs
      · subst hbx; exact hcmp
      · exact le_trans (hl.1 b hbxs) hcmp
    · rw [List.sorted_cons]
      refine ⟨?_, ih hl.2⟩
      intro b hb
      rcases mem_insertDescRow.mp hb with hbr | hbxs
      · subst hbr; omega
      · exact hl.1 b hbxs

theorem sortByIdDesc_sorted (l : List ResultRow) :
    (sortByIdDesc l).Sorted (fun a b => b.id ≤ a.id) := by
  induction l with
  | nil => simp [sortByIdDesc]
  | cons x xs ih => exact insertDescRow_sorted x _ ih

/-- Claim C8: every insert stores `variance = teacher_score − ai_score`
(the human-reviewed score minus the AI score), and listing returns the
records sorted most-recent-first — the freshly inserted record, which
carries the largest `id`, comes first. -/
theorem calibration_variance_and_order :
    ∀ (db : ResultsDB) (name roll subject : String) (ai_score teacher_score max_m : ℚ)
      (grade timestamp : String), DBWf db →
      ∃ newRow : ResultRow,
        (insert_result db name roll subject ai_score teacher_score max_m grade timestamp).rows =
          db.rows ++ [newRow] ∧
        newRow.score_variance = teacher_score - ai_score ∧
        get_all_results (insert_result db name roll subject ai_score teacher_score max_m grade timestamp) =
          newRow :: get_all_results db ∧
        (get_all_results (insert_result db name roll subject ai_score teacher_score max_m grade timestamp)).Sorted
          (fun a b => b.id ≤ a.id) := by
  intro db name roll subject ai teacher maxm grade ts hwf
  refine ⟨_, rfl, rfl, ?_, ?_⟩
  · exact sortByIdDesc_append_big db.rows _ (fun x hx => hwf x hx)
  · exact sortByIdDesc_sorted _

theorem calibration_variance_and_order_witness :
    ∃ newRow : ResultRow,
      (insert_result ⟨[], 1⟩ "Alice" "42" "math" 70 75 100 "B+" "t0").rows =
        [] ++ [newRow] ∧
      newRow.score_variance = 75 - 70 ∧
      get_all_results (insert_result ⟨[], 1⟩ "Alice" "42" "math" 70 75 100 "B+" "t0") =
        newRow :: get_all_results ⟨[], 1⟩ ∧
      (get_all_results (insert_result ⟨[], 1⟩ "Alice" "42" "math" 70 75 100 "B+" "t0")).Sorted
        (fun a b => b.id ≤ a.id) :=
  calibration_variance_and_order ⟨[], 1⟩ "Alice" "42" "math" 70 75 100 "B+" "t0"
    (by intro r hr; simp at hr)

/-! #### Page pairing in document comparison -/

theorem compare_documents_getD (cmp : String → String → SimResult)
    (tps sps : List PageResult) (i : ℕ) (dc : ComparisonRecord) (dp : PageResult)
    (h : i < min tps.length sps.length) :
    (compare_documents cmp tps sps).getD i dc =
      compare_page cmp (tps.getD i dp) (sps.getD i dp) := by
  induction tps generalizing sps i with
  | nil => simp at h
  | cons t ts ih =>
    cases sps with
    | nil => simp at h
    | cons s ss =>
      cases i with
      | zero => rfl
      | succ n =>
        simp only [compare_documents, List.zipWith_cons_cons, List.getD_cons_succ]
        exact ih ss n (by simp at h; omega)

theorem compare_documents_take (cmp : String → String → SimResult) :
    ∀ (tps sps : List PageResult),
      compare_documents cmp tps sps =
        compare_documents cmp (tps.take (min tps.length sps.length))
          (sps.take (min tps.length sps.length))
  | [], sps => by simp [compare_documents]
  | t :: ts, [] => by simp [compare_documents]
  | t :: ts, s :: ss => by
    simp only [compare_documents, List.zipWith_cons_cons, List.length_cons,
      Nat.succ_min_succ, List.take_succ_cons]
    exact congrArg _ (compare_documents_take cmp ts ss)

/-- Claim C10: document comparison pairs teacher and student pages
index-by-index, produces exactly `min` of the two page counts many
records, and depends only on the first `min` pages of each document —
pages of the longer document beyond that count are ignored. -/
theorem compare_documents_pairs_min :
    ∀ (cmp : String → String → SimResult) (tps sps : List PageResult),
      (compare_documents cmp tps sps).length = min tps.length sps.length ∧
      (∀ (i : ℕ) (dc : ComparisonRecord) (dp : PageResult),
        i < min tps.length sps.length →
        (compare_documents cmp tps sps).getD i dc =
          compare_page cmp (tps.getD i dp) (sps.getD i dp)) ∧
      compare_documents cmp tps sps =
        compare_documents cmp (tps.take (min tps.length sps.length))
          (sps.take (min tps.length sps.length)) :=
  fun cmp tps sps =>
    ⟨List.length_zipWith _ _ _,
     fun i dc dp h => compare_documents_getD cmp tps sps i dc dp h,
     compare_documents_take cmp tps sps⟩

theorem compare_documents_pairs_min_witness :
    (compare_documents (fun a b => { similarity := 1, analysis := a ++ b })
      [{ page_no := 1, content := "k1", student_name := "t", roll_no := "t",
         extraction_confidence := 1, raw_text := none },
       { page_no := 2, content := "k2", student_name := "t", roll_no := "t",
         extraction_confidence := 1, raw_text := none }]
      [{ page_no := 1, content := "s1", student_name := "s", roll_no := "s",
         extraction_confidence := 1, raw_text := none }]).getD 0
      { similarity := 0, analysis := "", teacher_page_no := 0, student_page_no := 0 } =
    compare_page (fun a b => { similarity := 1, analysis := a ++ b })
      { page_no := 1, content := "k1", student_name := "t", roll_no := "t",
        extraction_confidence := 1, raw_text := none }
      { page_no := 1, content := "s1", student_name := "s", roll_no := "s",
        extraction_confidence := 1, raw_text := none } :=
  (compare_documents_pairs_min (fun a b => { similarity := 1, analysis := a ++ b })
    [{ page_no := 1, content := "k1", student_name := "t", roll_no := "t",
       extraction_confidence := 1, raw_text := none },
     { page_no := 2, content := "k2", student_name := "t", roll_no := "t",
       extraction_confidence := 1, raw_text := none }]
    [{ page_no := 1, content := "s1", student_name := "s", roll_no := "s",
       extraction_confidence := 1, raw_text := none }]).2.1 0
    { similarity := 0, analysis := "", teacher_page_no := 0, student_page_no := 0 }
    { page_no := 1, content := "s1", student_name := "s", roll_no := "s",
      extraction_confidence := 1, raw_text := none } (by norm_num)

end PaperCorrection
